import Mathlib

/-
  Verification of the freight-delay-notification pipeline.

  Shallow embedding of the repository's workflow orchestration code:
  - src/workflows.ts                  (primary pipeline, freightDelayNotification)
  - src/constants.ts                  (DELAY_THRESHOLD_MINUTES and retry constants)
  - src/workflows/step2-evaluate-delay.ts   (threshold evaluator, inclusive >=)
  - src/workflows/evaluate-delay.ts         (duplicated threshold evaluator, strict >)
  - src/activities/check-traffic-conditions.ts (traffic lookup)
  - src/activities/generate-delay-message.ts   (message generation with fallback)
  - src/utils/fallback-message.ts              (deterministic fallback template)
  - src/activities/send-email-notification.ts  (delivery step)

  External collaborators (the Google Maps response, the AI completion, the
  SendGrid send outcome) are modelled as explicit inputs; JavaScript-specific
  semantics (falsy tests on strings and numbers, Math.round, String.trim) are
  embedded as small helper functions.
-/

deriving instance DecidableEq for Except

namespace FreightDelay

/-- JavaScript truthiness of an optional string: undefined and the empty
string are falsy (used by the source for environment variables and
customerName guards). -/
def jsTruthyStr : Option String → Bool
  | none => false
  | some s => decide (s ≠ "")

/-- JavaScript expression `a?.value || b` on an optional number: when `a` is
absent or its value is 0 (falsy), the result is `b`. -/
def jsOrInt : Option Int → Int → Int
  | some v, b => if v = 0 then b else v
  | none, b => b

/-- JavaScript `String.prototype.trim()`: strip whitespace from both ends. -/
def jsTrim (s : String) : String :=
  ⟨((s.data.dropWhile Char.isWhitespace).reverse.dropWhile Char.isWhitespace).reverse⟩

/-- JavaScript `Math.round(s / 60)` for an integer `s`: round half toward
positive infinity; Lean integer division by a positive constant is floor
division, so this is `⌊s / 60 + 1 / 2⌋`. -/
def jsRoundDiv60 (s : Int) : Int :=
  (s + 30) / 60

/-- src/types/delivery-route.ts -/
structure DeliveryRoute where
  origin : String
  destination : String
  waypoints : Option (List String)
  customerName : Option String
  customerEmail : String
  deriving DecidableEq

/-- src/types/traffic-conditions.ts -/
structure TrafficConditions where
  distance : Int
  durationWithoutTraffic : Int
  durationInTraffic : Int
  delayInSeconds : Int
  delayInMinutes : Int
  routeSummary : String
  deriving DecidableEq

/-- src/types/workflow.ts, FreightDelayWorkflowResult (the PipelineResult) -/
structure FreightDelayWorkflowResult where
  delayDetected : Bool
  trafficConditions : TrafficConditions
  notificationSent : Bool
  notificationMessage : Option String
  notificationError : Option String
  deriving DecidableEq

/-- src/types/message-generation.ts -/
structure MessageGenerationInput where
  route : DeliveryRoute
  trafficConditions : TrafficConditions
  customerName : Option String
  deriving DecidableEq

/-- src/activities/send-email-notification.ts, EmailNotificationInput -/
structure EmailNotificationInput where
  «to» : String
  subject : String
  message : String
  deriving DecidableEq

/-- src/constants.ts: `export const DELAY_THRESHOLD_MINUTES = 30` -/
def DELAY_THRESHOLD_MINUTES : Int := 30

/-- src/utils/fallback-message.ts, generateFallbackMessage: deterministic
template interpolating greeting, route, delay minutes and route summary. -/
def generateFallbackMessage (input : MessageGenerationInput) : String :=
  let greeting :=
    if jsTruthyStr input.customerName then
      "Dear " ++ input.customerName.getD "" ++ ","
    else
      "Dear Customer,"
  let delayTime := input.trafficConditions.delayInMinutes
  let routeInfo := "from " ++ input.route.origin ++ " to " ++ input.route.destination
  greeting ++ " We wanted to inform you that your freight delivery " ++ routeInfo ++
    " is experiencing a " ++ toString delayTime ++
    "-minute delay due to current traffic conditions on " ++
    input.trafficConditions.routeSummary ++
    ". We\x27re actively monitoring the situation and will keep you updated. We apologize for any inconvenience this may cause."

/-- src/activities/generate-delay-message.ts, generateDelayMessage.
`apiKey` models `process.env.ANTHROPIC_API_KEY` (absent or empty is falsy);
`aiResult` models the outcome of the Anthropic call inside the `try` block:
`Except.ok text` is a response whose first text block holds `text` (the
source returns it trimmed), and `Except.error` covers every failure of the
AI path, including a response with no text block. Every path returns a
string; the function never raises. -/
def generateDelayMessage (apiKey : Option String) (aiResult : Except String String)
    (input : MessageGenerationInput) : String :=
  if jsTruthyStr apiKey = false then
    generateFallbackMessage input
  else
    match aiResult with
    | .ok text => jsTrim text
    | .error _ => generateFallbackMessage input

/-- Environment of one pipeline run: the outcomes of the three proxied
activities as the workflow observes them.  `traffic` is the result of the
checkTrafficConditions activity; `genMessage` the generateDelayMessage
activity (a total function, matching the source's no-throw contract);
`send` the result of the sendEmailNotification activity after its retry
policy has run (ok, or the terminal failure the workflow catches). -/
structure PipelineEnv where
  traffic : Except String TrafficConditions
  genMessage : MessageGenerationInput → String
  send : EmailNotificationInput → Except String Unit

/-- src/workflows.ts, freightDelayNotification: the primary pipeline.
Step 1 awaits the traffic activity (a failure propagates to the caller);
step 2 compares `delayInMinutes >= DELAY_THRESHOLD_MINUTES` and returns
early when false; step 3 generates the message; step 4 sends the email in
a try/catch whose catch records the error instead of re-throwing. -/
def freightDelayNotification (route : DeliveryRoute) (env : PipelineEnv) :
    Except String FreightDelayWorkflowResult :=
  match env.traffic with
  | .error e => .error e
  | .ok trafficConditions =>
    let delayExceedsThreshold :=
      decide (trafficConditions.delayInMinutes ≥ DELAY_THRESHOLD_MINUTES)
    if delayExceedsThreshold = false then
      .ok { delayDetected := false
            trafficConditions := trafficConditions
            notificationSent := false
            notificationMessage := none
            notificationError := none }
    else
      let notificationMessage := env.genMessage
        { route := route
          trafficConditions := trafficConditions
          customerName := route.customerName }
      match env.send
        { «to» := route.customerEmail
          subject := "Delivery Delay Alert: " ++ route.origin ++ " to " ++ route.destination
          message := notificationMessage } with
      | .ok _ =>
        .ok { delayDetected := true
              trafficConditions := trafficConditions
              notificationSent := true
              notificationMessage := some notificationMessage
              notificationError := none }
      | .error err =>
        .ok { delayDetected := true
              trafficConditions := trafficConditions
              notificationSent := false
              notificationMessage := some notificationMessage
              notificationError := some err }

/-- Shared shape of the threshold evaluators' output (DelayEvaluation in
src/workflows/step2-evaluate-delay.ts and src/workflows/evaluate-delay.ts). -/
structure DelayEvaluation where
  exceedsThreshold : Bool
  delayInMinutes : Int
  thresholdMinutes : Int
  deriving DecidableEq

namespace Step2

/-- src/workflows/step2-evaluate-delay.ts, evaluateDelayThreshold: the
inclusive comparison `delayInMinutes >= DELAY_THRESHOLD_MINUTES`. -/
def evaluateDelayThreshold (trafficConditions : TrafficConditions) : DelayEvaluation :=
  let delayInMinutes := trafficConditions.delayInMinutes
  { exceedsThreshold := decide (delayInMinutes ≥ DELAY_THRESHOLD_MINUTES)
    delayInMinutes := delayInMinutes
    thresholdMinutes := DELAY_THRESHOLD_MINUTES }

end Step2

namespace EvalDelay

/-- src/workflows/evaluate-delay.ts, evaluateDelayThreshold: the duplicated
variant with the strict comparison `delayInMinutes > DELAY_THRESHOLD_MINUTES`. -/
def evaluateDelayThreshold (trafficConditions : TrafficConditions) : DelayEvaluation :=
  let delayInMinutes := trafficConditions.delayInMinutes
  { exceedsThreshold := decide (delayInMinutes > DELAY_THRESHOLD_MINUTES)
    delayInMinutes := delayInMinutes
    thresholdMinutes := DELAY_THRESHOLD_MINUTES }

end EvalDelay

/-- One leg of a Google Maps directions route; `duration_in_traffic` is the
optional field the source reads via `leg.duration_in_traffic?.value`. -/
structure RouteLeg where
  distance : Int
  duration : Int
  duration_in_traffic : Option Int
  deriving DecidableEq

/-- One route of a Google Maps directions response. -/
structure DirectionsRoute where
  summary : String
  legs : List RouteLeg
  deriving DecidableEq

/-- The `response.data` object of a Google Maps directions call. -/
structure DirectionsData where
  status : String
  routes : List DirectionsRoute
  deriving DecidableEq

/-- src/activities/check-traffic-conditions.ts, the leg-to-TrafficConditions
computation on the success path:
`durationInTraffic = leg.duration_in_traffic?.value || leg.duration.value`,
`delayInSeconds = durationInTraffic - durationWithoutTraffic` (no clamping),
`delayInMinutes = Math.round(delayInSeconds / 60)`. -/
def computeTrafficConditions (summary : String) (leg : RouteLeg) : TrafficConditions :=
  let durationInTraffic := jsOrInt leg.duration_in_traffic leg.duration
  let durationWithoutTraffic := leg.duration
  let delayInSeconds := durationInTraffic - durationWithoutTraffic
  let delayInMinutes := jsRoundDiv60 delayInSeconds
  { distance := leg.distance
    durationWithoutTraffic := durationWithoutTraffic
    durationInTraffic := durationInTraffic
    delayInSeconds := delayInSeconds
    delayInMinutes := delayInMinutes
    routeSummary := summary }

/-- src/activities/check-traffic-conditions.ts, checkTrafficConditions.
`apiKey` models `process.env.GOOGLE_MAPS_API_KEY`; `response` models the
outcome of `client.directions(...)` (`Except.error` is a rejected call,
wrapped by the catch block). Guard order follows the source: missing key
first (outside the try), then the rejected call, the non-OK status, the
empty routes list; an empty legs list makes the source dereference
`undefined` inside the try, surfacing as a wrapped error as well. -/
def checkTrafficConditions (apiKey : Option String)
    (response : Except String DirectionsData) : Except String TrafficConditions :=
  if jsTruthyStr apiKey = false then
    .error "GOOGLE_MAPS_API_KEY environment variable is not set"
  else
    match response with
    | .error e => .error ("Failed to fetch traffic conditions: " ++ e)
    | .ok data =>
      if data.status ≠ "OK" then
        .error ("Failed to fetch traffic conditions: Google Maps API error: " ++ data.status)
      else
        match data.routes with
        | [] => .error "Failed to fetch traffic conditions: No routes found for the given origin and destination"
        | route_data :: _ =>
          match route_data.legs with
          | [] => .error "Failed to fetch traffic conditions: route has no legs"
          | leg :: _ => .ok (computeTrafficConditions route_data.summary leg)

/-- Retry policy configuration, as in the `retry` options the workflow
passes to proxyActivities in src/workflows.ts and the constants in
src/constants.ts. Intervals are in seconds. -/
structure RetryPolicy where
  initialInterval : Nat
  backoffCoefficient : Nat
  maximumAttempts : Nat
  maximumInterval : Nat
  nonRetryableErrorTypes : List String
  deriving DecidableEq

/-- An error carrying the stable category tag the retry policy matches
against, next to its human-readable message. -/
structure StepError where
  category : String
  message : String
  deriving DecidableEq

/-- Modelled from the spec: the retry contract `nextDelay(attemptIndex) =
min(initialDelay * backoffMultiplier ^ (attemptIndex - 1), maxDelay)`
(section 4.1); the executor that computes it is the durable-execution
runtime, not code in src/. -/
def RetryPolicy.nextDelay (p : RetryPolicy) (attemptIndex : Nat) : Nat :=
  min (p.initialInterval * p.backoffCoefficient ^ (attemptIndex - 1)) p.maximumInterval

/-- Modelled from the spec: `shouldRetry(attemptIndex, error)` is false if
`attemptIndex >= maximumAttempts` or the error's category tag is in the
non-retryable set, true otherwise (section 4.1). -/
def RetryPolicy.shouldRetry (p : RetryPolicy) (attemptIndex : Nat) (e : StepError) : Bool :=
  !(decide (attemptIndex ≥ p.maximumAttempts)) && !(decide (e.category ∈ p.nonRetryableErrorTypes))

/-- Trace of one Step Executor run: final outcome, number of attempts made,
and the backoff suspensions performed, in order. -/
structure ExecutionTrace (α : Type) where
  outcome : Except StepError α
  attempts : Nat
  delays : List Nat
  deriving DecidableEq

/-- Modelled from the spec: the Step Executor loop of section 4.2.
`op n` is the outcome of attempt number `n` (1-based); `remaining` bounds
the recursion and is set to `maximumAttempts` by `execute`, which is ample
because `shouldRetry` refuses every attempt index at or above
`maximumAttempts`. -/
def executeLoop (p : RetryPolicy) (op : Nat → Except StepError α) :
    Nat → Nat → ExecutionTrace α
  | attemptIndex, remaining =>
    match op attemptIndex with
    | .ok v => { outcome := .ok v, attempts := 1, delays := [] }
    | .error e =>
      if p.shouldRetry attemptIndex e then
        match remaining with
        | 0 => { outcome := .error e, attempts := 1, delays := [] }
        | r + 1 =>
          let rest := executeLoop p op (attemptIndex + 1) r
          { outcome := rest.outcome
            attempts := rest.attempts + 1
            delays := p.nextDelay attemptIndex :: rest.delays }
      else { outcome := .error e, attempts := 1, delays := [] }

/-- Modelled from the spec: `execute(operation, policy)` starts at attempt
index 1 (section 4.2). -/
def execute (p : RetryPolicy) (op : Nat → Except StepError α) : ExecutionTrace α :=
  executeLoop p op 1 p.maximumAttempts

/-- The category tag of delivery-configuration errors; the string listed in
`nonRetryableErrorTypes` in src/workflows.ts and thrown as the message
head by src/activities/send-email-notification.ts. -/
def missingSendGridTag : String := "Missing SendGrid environment variables"

/-- src/workflows.ts lines 17-26 and src/constants.ts: the retry policy the
workflow configures for the sendEmailNotification activity — initial
interval 1 second, backoff coefficient 2, maximum attempts 3, maximum
interval 10 seconds, with the missing-configuration category non-retryable. -/
def deliveryRetryPolicy : RetryPolicy :=
  { initialInterval := 1
    backoffCoefficient := 2
    maximumAttempts := 3
    maximumInterval := 10
    nonRetryableErrorTypes := [missingSendGridTag] }

/-- src/activities/send-email-notification.ts, sendEmailNotification.
`apiKey` and `fromEmail` model the SENDGRID_API_KEY and SENDGRID_FROM_EMAIL
environment variables; `sendResult` models the outcome of `sgMail.send`.
When variables are missing it fails, before attempting the send, with the
missing-configuration category and a message listing exactly the missing
names; a rejected send is wrapped as a retryable failure. -/
def sendEmailNotification (apiKey fromEmail : Option String)
    (sendResult : Except String Unit) (_input : EmailNotificationInput) :
    Except StepError Unit :=
  let missingVars :=
    (if jsTruthyStr apiKey = false then ["SENDGRID_API_KEY"] else []) ++
    (if jsTruthyStr fromEmail = false then ["SENDGRID_FROM_EMAIL"] else [])
  if missingVars ≠ [] then
    .error { category := missingSendGridTag
             message := missingSendGridTag ++ ": " ++ String.intercalate ", " missingVars }
  else
    match sendResult with
    | .ok _ => .ok ()
    | .error e => .error { category := "Failed to send email"
                           message := "Failed to send email: " ++ e }

/- Concrete fixtures used to instantiate the theorems below. -/

/-- A concrete delivery route, mirroring the repository's test fixture. -/
def routeA : DeliveryRoute :=
  { origin := "New York, NY"
    destination := "Boston, MA"
    waypoints := none
    customerName := some "Alex"
    customerEmail := "customer@example.com" }

/-- Concrete traffic conditions with a given delay in minutes. -/
def tcWithDelay (m : Int) : TrafficConditions :=
  { distance := 100000
    durationWithoutTraffic := 3600
    durationInTraffic := 3600 + 60 * m
    delayInSeconds := 60 * m
    delayInMinutes := m
    routeSummary := "I-95 N" }

/-- A run environment whose traffic step succeeds and whose delivery succeeds. -/
def envOkSend (tc : TrafficConditions) : PipelineEnv :=
  { traffic := .ok tc, genMessage := fun _ => "Test message", send := fun _ => .ok () }

/-- A run environment whose traffic step succeeds and whose delivery fails
terminally. -/
def envFailSend (tc : TrafficConditions) : PipelineEnv :=
  { traffic := .ok tc, genMessage := fun _ => "Test message", send := fun _ => .error "SendGrid down" }

/-- C1: the pipeline propagates an error to its caller if and only if the
traffic-lookup step fails — a traffic failure is re-thrown unchanged; a
successful traffic lookup always yields a normally returned PipelineResult,
and a terminal delivery failure is captured in the result (error recorded,
message kept), never re-thrown. -/
theorem freightDelayNotification_throws_iff_traffic_fails :
    (∀ (route : DeliveryRoute) (env : PipelineEnv) (e : String),
      env.traffic = Except.error e →
      freightDelayNotification route env = Except.error e) ∧
    (∀ (route : DeliveryRoute) (env : PipelineEnv) (tc : TrafficConditions),
      env.traffic = Except.ok tc →
      ∃ r, freightDelayNotification route env = Except.ok r) ∧
    (∀ (route : DeliveryRoute) (env : PipelineEnv) (tc : TrafficConditions) (err : String),
      env.traffic = Except.ok tc →
      DELAY_THRESHOLD_MINUTES ≤ tc.delayInMinutes →
      (∀ inp, env.send inp = Except.error err) →
      ∃ r, freightDelayNotification route env = Except.ok r ∧
        r.notificationError = some err ∧ r.notificationMessage.isSome = true) := by
  refine ⟨?_, ?_, ?_⟩
  · intro route env e h
    simp [freightDelayNotification, h]
  · intro route env tc h
    simp only [freightDelayNotification, h]
    split
    · exact ⟨_, rfl⟩
    · split
      · exact ⟨_, rfl⟩
      · exact ⟨_, rfl⟩
  · intro route env tc err htc hth hsend
    have hdec : decide (tc.delayInMinutes ≥ DELAY_THRESHOLD_MINUTES) = true := by
      simpa using hth
    simp only [freightDelayNotification, htc, hdec, Bool.true_eq_false, if_false, hsend]
    exact ⟨_, rfl, rfl, rfl⟩

/-- C1 witness: instantiated on a failing traffic run and on a run whose
delivery fails terminally. -/
theorem freightDelayNotification_throws_iff_traffic_fails_witness :
    freightDelayNotification routeA
      { traffic := Except.error "boom", genMessage := fun _ => "m", send := fun _ => Except.ok () } =
      Except.error "boom" ∧
    (∃ r, freightDelayNotification routeA (envFailSend (tcWithDelay 45)) = Except.ok r ∧
      r.notificationError = some "SendGrid down" ∧ r.notificationMessage.isSome = true) :=
  ⟨freightDelayNotification_throws_iff_traffic_fails.1 routeA _ "boom" rfl,
   freightDelayNotification_throws_iff_traffic_fails.2.2 routeA (envFailSend (tcWithDelay 45))
     (tcWithDelay 45) "SendGrid down" rfl (by decide) (fun _ => rfl)⟩

/-- C2: in every PipelineResult returned normally, notificationSent = true
implies the error field is absent, a present error implies
notificationSent = false, and there is a run in which the message is
present while notificationSent is false (the message survives a delivery
failure). -/
theorem freightDelayNotification_result_invariant :
    (∀ (route : DeliveryRoute) (env : PipelineEnv) (r : FreightDelayWorkflowResult),
      freightDelayNotification route env = Except.ok r →
      (r.notificationSent = true → r.notificationError = none) ∧
      (r.notificationError ≠ none → r.notificationSent = false)) ∧
    (∃ (route : DeliveryRoute) (env : PipelineEnv) (r : FreightDelayWorkflowResult),
      freightDelayNotification route env = Except.ok r ∧
      r.notificationMessage.isSome = true ∧ r.notificationSent = false) := by
  constructor
  · intro route env r
    unfold freightDelayNotification
    rcases env.traffic with e | tc
    · intro h
      cases h
    · dsimp only
      split
      · intro h
        cases h
        exact ⟨fun _ => rfl, fun h' => absurd rfl h'⟩
      · split
        · intro h
          cases h
          exact ⟨fun _ => rfl, fun h' => absurd rfl h'⟩
        · intro h
          cases h
          exact ⟨fun h' => (nomatch h'), fun _ => rfl⟩

  · exact ⟨routeA, envFailSend (tcWithDelay 45), _, rfl, rfl, rfl⟩

/-- C2 witness: the invariant instantiated on a concrete run whose delivery
fails terminally. -/
theorem freightDelayNotification_result_invariant_witness :
    (({ delayDetected := true
        trafficConditions := tcWithDelay 45
        notificationSent := false
        notificationMessage := some "Test message"
        notificationError := some "SendGrid down" } : FreightDelayWorkflowResult).notificationSent = true →
      ({ delayDetected := true
         trafficConditions := tcWithDelay 45
         notificationSent := false
         notificationMessage := some "Test message"
         notificationError := some "SendGrid down" } : FreightDelayWorkflowResult).notificationError = none) ∧
    (({ delayDetected := true
        trafficConditions := tcWithDelay 45
        notificationSent := false
        notificationMessage := some "Test message"
        notificationError := some "SendGrid down" } : FreightDelayWorkflowResult).notificationError ≠ none →
      ({ delayDetected := true
         trafficConditions := tcWithDelay 45
         notificationSent := false
         notificationMessage := some "Test message"
         notificationError := some "SendGrid down" } : FreightDelayWorkflowResult).notificationSent = false) :=
  freightDelayNotification_result_invariant.1 routeA (envFailSend (tcWithDelay 45)) _ rfl

/-- C3: the threshold decision of the primary orchestration path is
inclusive — the step2 evaluator reports exceedsThreshold exactly when
`delayInMinutes >= DELAY_THRESHOLD_MINUTES`, the pipeline's delayDetected
flag agrees with that comparison on every normal run, and a delay exactly
equal to the threshold yields delayDetected = true. -/
theorem threshold_decision_inclusive :
    (∀ tc : TrafficConditions,
      (Step2.evaluateDelayThreshold tc).exceedsThreshold = true ↔
        tc.delayInMinutes ≥ DELAY_THRESHOLD_MINUTES) ∧
    (∀ (route : DeliveryRoute) (env : PipelineEnv) (tc : TrafficConditions)
        (r : FreightDelayWorkflowResult),
      env.traffic = Except.ok tc →
      freightDelayNotification route env = Except.ok r →
      (r.delayDetected = true ↔ tc.delayInMinutes ≥ DELAY_THRESHOLD_MINUTES)) ∧
    (∀ (route : DeliveryRoute) (env : PipelineEnv) (tc : TrafficConditions)
        (r : FreightDelayWorkflowResult),
      env.traffic = Except.ok tc →
      tc.delayInMinutes = DELAY_THRESHOLD_MINUTES →
      freightDelayNotification route env = Except.ok r →
      r.delayDetected = true) := by
  have h2 : ∀ (route : DeliveryRoute) (env : PipelineEnv) (tc : TrafficConditions)
      (r : FreightDelayWorkflowResult),
      env.traffic = Except.ok tc →
      freightDelayNotification route env = Except.ok r →
      (r.delayDetected = true ↔ tc.delayInMinutes ≥ DELAY_THRESHOLD_MINUTES) := by
    intro route env tc r htc
    unfold freightDelayNotification
    rw [htc]
    dsimp only
    split
    · next hcond =>
      intro h
      cases h
      simp only [decide_eq_false_iff_not] at hcond
      simp [hcond]
    · next hcond =>
      simp only [Bool.not_eq_false, decide_eq_true_eq] at hcond
      split
      · intro h
        cases h
        simp [hcond]
      · intro h
        cases h
        simp [hcond]
  refine ⟨?_, h2, ?_⟩
  · intro tc
    simp [Step2.evaluateDelayThreshold]
  · intro route env tc r htc heq h
    exact (h2 route env tc r htc h).mpr (heq ▸ le_refl _)

/-- C3 witness: a run whose delay is exactly the threshold (30 minutes)
has delayDetected = true. -/
theorem threshold_decision_inclusive_witness :
    ({ delayDetected := true
       trafficConditions := tcWithDelay 30
       notificationSent := true
       notificationMessage := some "Test message"
       notificationError := none } : FreightDelayWorkflowResult).delayDetected = true :=
  threshold_decision_inclusive.2.2 routeA (envOkSend (tcWithDelay 30)) (tcWithDelay 30) _
    rfl rfl rfl

/-- C4: on a run whose traffic step yields a delay strictly below the
threshold, the pipeline returns exactly the no-delay result with the
traffic conditions passed through unchanged and both optional fields
absent, and the result does not depend on the message-generation or
delivery collaborators (they are never invoked). -/
theorem below_threshold_short_circuit :
    ∀ (route : DeliveryRoute) (env : PipelineEnv) (tc : TrafficConditions),
      env.traffic = Except.ok tc →
      tc.delayInMinutes < DELAY_THRESHOLD_MINUTES →
      freightDelayNotification route env =
        Except.ok { delayDetected := false
                    trafficConditions := tc
                    notificationSent := false
                    notificationMessage := none
                    notificationError := none } ∧
      (∀ env2 : PipelineEnv, env2.traffic = env.traffic →
        freightDelayNotification route env2 = freightDelayNotification route env) := by
  intro route env tc htc hlt
  have hdec : decide (tc.delayInMinutes ≥ DELAY_THRESHOLD_MINUTES) = false := by
    simp only [decide_eq_false_iff_not]
    omega
  have hrun : ∀ env3 : PipelineEnv, env3.traffic = Except.ok tc →
      freightDelayNotification route env3 =
        Except.ok { delayDetected := false
                    trafficConditions := tc
                    notificationSent := false
                    notificationMessage := none
                    notificationError := none } := by
    intro env3 h3
    unfold freightDelayNotification
    rw [h3]
    simp [hdec]
  exact ⟨hrun env htc, fun env2 h2 => by rw [hrun env htc, hrun env2 (h2.trans htc)]⟩

/-- C4 witness: instantiated at a 4-minute delay (below the 30-minute
threshold). -/
theorem below_threshold_short_circuit_witness :
    freightDelayNotification routeA (envOkSend (tcWithDelay 4)) =
      Except.ok { delayDetected := false
                  trafficConditions := tcWithDelay 4
                  notificationSent := false
                  notificationMessage := none
                  notificationError := none } :=
  (below_threshold_short_circuit routeA (envOkSend (tcWithDelay 4)) (tcWithDelay 4)
    rfl (by decide)).1

/-- C9: the two parallel threshold evaluators agree away from the boundary
and disagree exactly at it — for a delay other than the threshold both
return the same decision, and for a delay exactly equal to the threshold
the step2 evaluator (>=) decides true while the duplicated variant (>)
decides false. -/
theorem threshold_variants_disagree_exactly_at_boundary :
    (∀ tc : TrafficConditions, tc.delayInMinutes ≠ DELAY_THRESHOLD_MINUTES →
      (Step2.evaluateDelayThreshold tc).exceedsThreshold =
        (EvalDelay.evaluateDelayThreshold tc).exceedsThreshold) ∧
    (∀ tc : TrafficConditions, tc.delayInMinutes = DELAY_THRESHOLD_MINUTES →
      (Step2.evaluateDelayThreshold tc).exceedsThreshold = true ∧
      (EvalDelay.evaluateDelayThreshold tc).exceedsThreshold = false) := by
  constructor
  · intro tc h
    simp only [Step2.evaluateDelayThreshold, EvalDelay.evaluateDelayThreshold]
    rw [decide_eq_decide]
    constructor <;> (intro hc; omega)
  · intro tc h
    simp [Step2.evaluateDelayThreshold, EvalDelay.evaluateDelayThreshold, h]

/-- C9 witness: instantiated at delays of 31 minutes (off the boundary) and
exactly 30 minutes (the boundary). -/
theorem threshold_variants_disagree_exactly_at_boundary_witness :
    (Step2.evaluateDelayThreshold (tcWithDelay 31)).exceedsThreshold =
      (EvalDelay.evaluateDelayThreshold (tcWithDelay 31)).exceedsThreshold ∧
    ((Step2.evaluateDelayThreshold (tcWithDelay 30)).exceedsThreshold = true ∧
      (EvalDelay.evaluateDelayThreshold (tcWithDelay 30)).exceedsThreshold = false) :=
  ⟨threshold_variants_disagree_exactly_at_boundary.1 (tcWithDelay 31) (by decide),
   threshold_variants_disagree_exactly_at_boundary.2 (tcWithDelay 30) rfl⟩

/-- A concrete message-generation input used by the witnesses below. -/
def mgInputA : MessageGenerationInput :=
  { route := routeA, trafficConditions := tcWithDelay 45, customerName := some "Alex" }

/-- A run environment whose generator runs with no API key, forcing the
fallback template. -/
def envFallback45 : PipelineEnv :=
  { traffic := .ok (tcWithDelay 45)
    genMessage := generateDelayMessage none (Except.ok "AI text")
    send := fun _ => .ok () }

/-- C5 counterexample: with an API key configured and an AI call that
succeeds returning whitespace-only text, a threshold-exceeding run returns
notificationMessage = some "" — present but empty, contradicting the claim
that the message is non-empty on every threshold-exceeded run. -/
theorem generateDelayMessage_nonempty_counterexample :
    DELAY_THRESHOLD_MINUTES ≤ (tcWithDelay 45).delayInMinutes ∧
    freightDelayNotification routeA
      { traffic := Except.ok (tcWithDelay 45)
        genMessage := generateDelayMessage (some "test-key") (Except.ok "   ")
        send := fun _ => Except.ok () } =
      Except.ok { delayDetected := true
                  trafficConditions := tcWithDelay 45
                  notificationSent := true
                  notificationMessage := some ""
                  notificationError := none } :=
  ⟨by decide, rfl⟩

/-- C5 (amended): generateDelayMessage is total (never raises) and returns
the deterministic fallback template whenever the API key is absent/empty or
the AI path fails; the fallback is non-empty; on every threshold-exceeded
run the pipeline's notificationMessage is present (it is the generator's
output); and it is non-empty whenever the generator took the fallback path —
a successful AI call instead yields the AI text trimmed, which can be empty. -/
theorem generateDelayMessage_fallback_amended :
    (∀ (apiKey : Option String) (aiResult : Except String String) (input : MessageGenerationInput),
      jsTruthyStr apiKey = false ∨ (∃ e, aiResult = Except.error e) →
      generateDelayMessage apiKey aiResult input = generateFallbackMessage input) ∧
    (∀ input : MessageGenerationInput, generateFallbackMessage input ≠ "") ∧
    (∀ (route : DeliveryRoute) (env : PipelineEnv) (tc : TrafficConditions),
      env.traffic = Except.ok tc →
      DELAY_THRESHOLD_MINUTES ≤ tc.delayInMinutes →
      ∃ r, freightDelayNotification route env = Except.ok r ∧
        r.notificationMessage = some (env.genMessage
          { route := route, trafficConditions := tc, customerName := route.customerName })) ∧
    (∀ (route : DeliveryRoute) (env : PipelineEnv) (tc : TrafficConditions)
        (apiKey : Option String) (aiResult : Except String String),
      env.traffic = Except.ok tc →
      DELAY_THRESHOLD_MINUTES ≤ tc.delayInMinutes →
      env.genMessage = generateDelayMessage apiKey aiResult →
      (jsTruthyStr apiKey = false ∨ (∃ e, aiResult = Except.error e)) →
      ∃ r m, freightDelayNotification route env = Except.ok r ∧
        r.notificationMessage = some m ∧ m ≠ "") := by
  have hfb : ∀ (apiKey : Option String) (aiResult : Except String String)
      (input : MessageGenerationInput),
      jsTruthyStr apiKey = false ∨ (∃ e, aiResult = Except.error e) →
      generateDelayMessage apiKey aiResult input = generateFallbackMessage input := by
    intro ak ai input h
    rcases h with hk | ⟨e, he⟩
    · simp [generateDelayMessage, hk]
    · subst he
      cases hk : jsTruthyStr ak <;> simp [generateDelayMessage, hk]
  have hne : ∀ input : MessageGenerationInput, generateFallbackMessage input ≠ "" := by
    intro input h
    by_cases hc : jsTruthyStr input.customerName = true
    · simp only [generateFallbackMessage, hc, if_true] at h
      have := congrArg String.data h
      simp [String.data_append] at this
    · simp only [generateFallbackMessage, hc, if_false] at h
      have := congrArg String.data h
      simp [String.data_append] at this
  have hmsg : ∀ (route : DeliveryRoute) (env : PipelineEnv) (tc : TrafficConditions),
      env.traffic = Except.ok tc →
      DELAY_THRESHOLD_MINUTES ≤ tc.delayInMinutes →
      ∃ r, freightDelayNotification route env = Except.ok r ∧
        r.notificationMessage = some (env.genMessage
          { route := route, trafficConditions := tc, customerName := route.customerName }) := by
    intro route env tc htc hth
    have hdec : decide (tc.delayInMinutes ≥ DELAY_THRESHOLD_MINUTES) = true := by
      simpa using hth
    unfold freightDelayNotification
    rw [htc]
    simp only [hdec, Bool.true_eq_false, if_false]
    rcases hsend : env.send
      { «to» := route.customerEmail
        subject := "Delivery Delay Alert: " ++ route.origin ++ " to " ++ route.destination
        message := env.genMessage
          { route := route, trafficConditions := tc, customerName := route.customerName } } with
      e | u
    · exact ⟨_, rfl, rfl⟩
    · exact ⟨_, rfl, rfl⟩
  refine ⟨hfb, hne, hmsg, ?_⟩
  intro route env tc ak ai htc hth hgen hfall
  obtain ⟨r, hr, hm⟩ := hmsg route env tc htc hth
  refine ⟨r, generateFallbackMessage
    { route := route, trafficConditions := tc, customerName := route.customerName }, hr, ?_,
    hne _⟩
  rw [hm, hgen, hfb ak ai _ hfall]

/-- C5 (amended) witness: instantiated with no API key — the generator
returns the fallback, which is non-empty, and the pipeline's message field
holds a non-empty string. -/
theorem generateDelayMessage_fallback_amended_witness :
    generateDelayMessage none (Except.ok "AI text") mgInputA = generateFallbackMessage mgInputA ∧
    generateFallbackMessage mgInputA ≠ "" ∧
    (∃ r m, freightDelayNotification routeA envFallback45 = Except.ok r ∧
      r.notificationMessage = some m ∧ m ≠ "") :=
  ⟨generateDelayMessage_fallback_amended.1 none (Except.ok "AI text") mgInputA (Or.inl rfl),
   generateDelayMessage_fallback_amended.2.1 mgInputA,
   generateDelayMessage_fallback_amended.2.2.2 routeA envFallback45 (tcWithDelay 45) none
     (Except.ok "AI text") rfl (by decide) rfl (Or.inl rfl)⟩

/-- C6: the backoff delay before attempt n+1 is
`min(initialDelay * backoffMultiplier ^ (n - 1), maxDelay)`, and under the
delivery step's configured policy (initial 1s, multiplier 2, maximum 3
attempts, cap 10s) an always-retryably-failing operation is attempted
exactly 3 times with suspensions of 1s then 2s, then gives up with the
final failure. -/
theorem retry_backoff_schedule :
    (∀ (p : RetryPolicy) (n : Nat), 1 ≤ n →
      p.nextDelay n =
        min (p.initialInterval * p.backoffCoefficient ^ (n - 1)) p.maximumInterval) ∧
    (∀ e : StepError, e.category ∉ deliveryRetryPolicy.nonRetryableErrorTypes →
      (execute deliveryRetryPolicy (fun _ => (Except.error e : Except StepError Unit))).attempts = 3 ∧
      (execute deliveryRetryPolicy (fun _ => (Except.error e : Except StepError Unit))).delays = [1, 2] ∧
      (execute deliveryRetryPolicy (fun _ => (Except.error e : Except StepError Unit))).outcome =
        Except.error e) := by
  constructor
  · intro p n _
    rfl
  · intro e he
    simp only [deliveryRetryPolicy, missingSendGridTag, List.mem_singleton] at he
    simp [execute, executeLoop, RetryPolicy.shouldRetry, RetryPolicy.nextDelay,
      deliveryRetryPolicy, missingSendGridTag, he]

/-- C6 witness: instantiated at attempt index 2 and at a concrete retryable
error. -/
theorem retry_backoff_schedule_witness :
    deliveryRetryPolicy.nextDelay 2 =
      min (deliveryRetryPolicy.initialInterval * deliveryRetryPolicy.backoffCoefficient ^ (2 - 1))
        deliveryRetryPolicy.maximumInterval ∧
    (execute deliveryRetryPolicy
      (fun _ => (Except.error { category := "Failed to send email"
                                message := "Failed to send email: rate limit exceeded" } :
        Except StepError Unit))).attempts = 3 ∧
    (execute deliveryRetryPolicy
      (fun _ => (Except.error { category := "Failed to send email"
                                message := "Failed to send email: rate limit exceeded" } :
        Except StepError Unit))).delays = [1, 2] :=
  ⟨retry_backoff_schedule.1 deliveryRetryPolicy 2 (by decide),
   (retry_backoff_schedule.2
     { category := "Failed to send email"
       message := "Failed to send email: rate limit exceeded" } (by decide)).1,
   (retry_backoff_schedule.2
     { category := "Failed to send email"
       message := "Failed to send email: rate limit exceeded" } (by decide)).2.1⟩

/-- C7: shouldRetry is false exactly when the attempt index has reached the
maximum or the error's category tag is non-retryable, and a delivery
operation failing with the non-retryable missing-configuration category is
attempted exactly once and its failure returned immediately with zero
suspensions. -/
theorem nonretryable_short_circuit :
    (∀ (p : RetryPolicy) (n : Nat) (e : StepError),
      p.shouldRetry n e = false ↔
        (n ≥ p.maximumAttempts ∨ e.category ∈ p.nonRetryableErrorTypes)) ∧
    (∀ e : StepError, e.category ∈ deliveryRetryPolicy.nonRetryableErrorTypes →
      execute deliveryRetryPolicy (fun _ => (Except.error e : Except StepError Unit)) =
        { outcome := Except.error e, attempts := 1, delays := [] }) := by
  constructor
  · intro p n e
    cases hm : decide (n ≥ p.maximumAttempts) <;>
      cases hcat : decide (e.category ∈ p.nonRetryableErrorTypes) <;>
        simp_all [RetryPolicy.shouldRetry]
  · intro e he
    simp only [deliveryRetryPolicy, missingSendGridTag, List.mem_singleton] at he
    simp [execute, executeLoop, RetryPolicy.shouldRetry, deliveryRetryPolicy,
      missingSendGridTag, he]

/-- C7 witness: the modelled sendEmailNotification run with both SendGrid
environment variables missing fails with the non-retryable category on its
only attempt, with no suspension. -/
theorem nonretryable_short_circuit_witness :
    execute deliveryRetryPolicy
      (fun _ => sendEmailNotification none none (Except.ok ())
        { «to» := "customer@example.com", subject := "Test", message := "Hello" }) =
      { outcome := Except.error
          { category := missingSendGridTag
            message := "Missing SendGrid environment variables: SENDGRID_API_KEY, SENDGRID_FROM_EMAIL" }
        attempts := 1
        delays := [] } :=
  nonretryable_short_circuit.2
    { category := missingSendGridTag
      message := "Missing SendGrid environment variables: SENDGRID_API_KEY, SENDGRID_FROM_EMAIL" }
    (by decide)

/-- A directions response whose traffic duration is below the plain
duration, producing a negative delay. -/
def negativeDelayData : DirectionsData :=
  { status := "OK"
    routes := [{ summary := "Highway 1"
                 legs := [{ distance := 100000
                            duration := 3600
                            duration_in_traffic := some 3000 }] }] }

/-- C8: every successful traffic lookup returns delayInSeconds equal to
durationInTraffic minus durationWithoutTraffic with no clamping — a
negative difference is preserved, as witnessed by a concrete lookup — and
delayInMinutes is delayInSeconds divided by 60 rounded to the nearest
whole minute (the rounded value is within 30 seconds of the exact delay,
ties rounding up). -/
theorem traffic_delay_computation :
    (∀ (apiKey : Option String) (response : Except String DirectionsData)
        (tc : TrafficConditions),
      checkTrafficConditions apiKey response = Except.ok tc →
      tc.delayInSeconds = tc.durationInTraffic - tc.durationWithoutTraffic ∧
      -30 ≤ tc.delayInSeconds - 60 * tc.delayInMinutes ∧
      tc.delayInSeconds - 60 * tc.delayInMinutes < 30) ∧
    (∃ tc : TrafficConditions,
      checkTrafficConditions (some "test-api-key") (Except.ok negativeDelayData) =
        Except.ok tc ∧ tc.delayInSeconds < 0) := by
  constructor
  · intro ak resp tc
    unfold checkTrafficConditions
    split
    · intro h
      cases h
    · rcases resp with e | data
      · intro h
        cases h
      · dsimp only
        split
        · intro h
          cases h
        · rcases data with ⟨status, routes⟩
          rcases routes with _ | ⟨rt, rest⟩
          · intro h
            cases h
          · rcases rt with ⟨summary, legs⟩
            rcases legs with _ | ⟨leg, lrest⟩
            · intro h
              cases h
            · intro h
              cases h
              refine ⟨rfl, ?_, ?_⟩ <;>
                (simp only [computeTrafficConditions, jsRoundDiv60]; omega)
  · refine ⟨{ distance := 100000
              durationWithoutTraffic := 3600
              durationInTraffic := 3000
              delayInSeconds := -600
              delayInMinutes := -10
              routeSummary := "Highway 1" }, ?_, ?_⟩
    · rfl
    · decide

/-- C8 witness: the general part instantiated on the concrete
negative-delay lookup (delay of -600 seconds, rounded to -10 minutes). -/
theorem traffic_delay_computation_witness :
    ({ distance := 100000
       durationWithoutTraffic := 3600
       durationInTraffic := 3000
       delayInSeconds := -600
       delayInMinutes := -10
       routeSummary := "Highway 1" } : TrafficConditions).delayInSeconds =
      ({ distance := 100000
         durationWithoutTraffic := 3600
         durationInTraffic := 3000
         delayInSeconds := -600
         delayInMinutes := -10
         routeSummary := "Highway 1" } : TrafficConditions).durationInTraffic -
        ({ distance := 100000
           durationWithoutTraffic := 3600
           durationInTraffic := 3000
           delayInSeconds := -600
           delayInMinutes := -10
           routeSummary := "Highway 1" } : TrafficConditions).durationWithoutTraffic :=
  (traffic_delay_computation.1 (some "test-api-key") (Except.ok negativeDelayData) _ rfl).1

/-- C10: when the route leg has no duration-in-traffic value (and a
non-zero plain duration), the lookup substitutes the plain duration, so
the returned conditions have zero delay in seconds and minutes, and no
positive threshold regards that delay as exceeded (in particular the
step2 evaluator decides false). -/
theorem missing_duration_in_traffic_zero_delay :
    ∀ (apiKey summary : String) (dist dur : Int),
      apiKey ≠ "" →
      dur ≠ 0 →
      ∃ tc : TrafficConditions,
        checkTrafficConditions (some apiKey)
          (Except.ok { status := "OK"
                       routes := [{ summary := summary
                                    legs := [{ distance := dist
                                               duration := dur
                                               duration_in_traffic := none }] }] }) =
          Except.ok tc ∧
        tc.durationInTraffic = dur ∧
        tc.durationWithoutTraffic = dur ∧
        tc.delayInSeconds = 0 ∧
        tc.delayInMinutes = 0 ∧
        (∀ t : Int, 0 < t → ¬ tc.delayInMinutes ≥ t) ∧
        (Step2.evaluateDelayThreshold tc).exceedsThreshold = false := by
  intro apiKey summary dist dur hk hdur
  have hkey : jsTruthyStr (some apiKey) = true := by
    simp [jsTruthyStr, hk]
  refine ⟨computeTrafficConditions summary
      { distance := dist, duration := dur, duration_in_traffic := none },
    ?_, ?_, rfl, ?_, ?_, ?_, ?_⟩
  · unfold checkTrafficConditions
    rw [hkey]
    simp
  · simp [computeTrafficConditions, jsOrInt, jsRoundDiv60]
  · simp [computeTrafficConditions, jsOrInt, jsRoundDiv60]
  · simp [computeTrafficConditions, jsOrInt, jsRoundDiv60]
  · intro t ht
    simp [computeTrafficConditions, jsOrInt, jsRoundDiv60]
    omega
  · simp [Step2.evaluateDelayThreshold, computeTrafficConditions, jsOrInt, jsRoundDiv60,
      DELAY_THRESHOLD_MINUTES]

/-- C10 witness: instantiated on the repository's own test fixture (a leg
with duration 3600 seconds and no duration-in-traffic field). -/
theorem missing_duration_in_traffic_zero_delay_witness :
    ∃ tc : TrafficConditions,
      checkTrafficConditions (some "test-api-key")
        (Except.ok { status := "OK"
                     routes := [{ summary := "Highway 1"
                                  legs := [{ distance := 100000
                                             duration := 3600
                                             duration_in_traffic := none }] }] }) =
        Except.ok tc ∧
      tc.durationInTraffic = 3600 ∧
      tc.durationWithoutTraffic = 3600 ∧
      tc.delayInSeconds = 0 ∧
      tc.delayInMinutes = 0 ∧
      (∀ t : Int, 0 < t → ¬ tc.delayInMinutes ≥ t) ∧
      (Step2.evaluateDelayThreshold tc).exceedsThreshold = false :=
  missing_duration_in_traffic_zero_delay "test-api-key" "Highway 1" 100000 3600
    (by decide) (by decide)

end FreightDelay
